import Mathlib

/-!
Shallow embedding of the pg-peek page/tuple decoder
(src/pg-peek-lib/src/lib.rs) and verification of its specification claims.

Modelling conventions:
* A byte stream is a `List Nat` (one `Nat` per byte); reading consumes a
  prefix and returns the rest of the list, mirroring the Rust `Read` cursor.
* Fallible Rust code returning `io::Result` is embedded as `RResult`, which
  has a third outcome `panicked` for Rust's checked-arithmetic panics
  (an unsigned subtraction that underflows is a panic, not an `Err`).
* `bitflags`' `from_bits_truncate` keeps only the bits named by the flag
  set's constants; it is embedded as `Nat.land` with the union of those
  constants.
* `std::mem::size_of` on the Rust structs evaluates to the alignment-padded
  in-memory size: 24 for `PageHeaderData` (8+2+2+2+2+2+2+4 = 24, already a
  multiple of the 8-byte alignment) and 24 for `HeapTupleHeaderData`
  (4+4+4+6+2+2+1 = 23 bytes of fields, padded to the 4-byte alignment).
-/

/-- Byte order, as in the Rust `Endianness` enum. -/
inductive Endianness where
  | littleEndian
  | bigEndian
deriving DecidableEq, Repr

/-- The I/O error values that can arise in the decoder:
`shortRead` is `byteorder`/`read_exact`'s `UnexpectedEof`, and
`incompletePageData` is the `InvalidData` error with message
"Incomplete page data" built in `read_all_pages`. -/
inductive IoFailure where
  | shortRead
  | incompletePageData
deriving DecidableEq, Repr

/-- Outcome of running a piece of the Rust decoder: `ok` and `err` embed
`io::Result`, while `panicked` marks a Rust panic (checked-arithmetic
underflow), which is not an `Err` value. -/
inductive RResult (α : Type) where
  | ok (value : α)
  | err (e : IoFailure)
  | panicked
deriving DecidableEq, Repr

/-- Sequencing of fallible decoder steps: the `?` operator. `err` and
`panicked` both abort the computation. -/
def RResult.bind {α β : Type} : RResult α → (α → RResult β) → RResult β
  | .ok a, f => f a
  | .err e, _ => .err e
  | .panicked, _ => .panicked

/-- Value of a 16-bit word assembled from 2 bytes under an endianness. -/
def u16val : Endianness → Nat → Nat → Nat
  | .littleEndian, b0, b1 => b0 + 256 * b1
  | .bigEndian, b0, b1 => b1 + 256 * b0

/-- Value of a 32-bit word assembled from 4 bytes under an endianness. -/
def u32val : Endianness → Nat → Nat → Nat → Nat → Nat
  | .littleEndian, b0, b1, b2, b3 =>
      b0 + 256 * b1 + 65536 * b2 + 16777216 * b3
  | .bigEndian, b0, b1, b2, b3 =>
      b3 + 256 * b2 + 65536 * b1 + 16777216 * b0

/-- Value of a 64-bit word assembled from 8 bytes under an endianness. -/
def u64val : Endianness → Nat → Nat → Nat → Nat → Nat → Nat → Nat → Nat → Nat
  | .littleEndian, b0, b1, b2, b3, b4, b5, b6, b7 =>
      b0 + 256 * b1 + 65536 * b2 + 16777216 * b3 + 4294967296 * b4 +
        1099511627776 * b5 + 281474976710656 * b6 + 72057594037927936 * b7
  | .bigEndian, b0, b1, b2, b3, b4, b5, b6, b7 =>
      b7 + 256 * b6 + 65536 * b5 + 16777216 * b4 + 4294967296 * b3 +
        1099511627776 * b2 + 281474976710656 * b1 + 72057594037927936 * b0

/-- `reader.read_u8()`: consume one byte. -/
def read_u8 (s : List Nat) : RResult (Nat × List Nat) :=
  match s with
  | b :: rest => .ok (b, rest)
  | _ => .err .shortRead

/-- `read_u16(reader, endianness)`: consume two bytes. -/
def read_u16 (en : Endianness) (s : List Nat) : RResult (Nat × List Nat) :=
  match s with
  | b0 :: b1 :: rest => .ok (u16val en b0 b1, rest)
  | _ => .err .shortRead

/-- `read_u32(reader, endianness)`: consume four bytes. -/
def read_u32 (en : Endianness) (s : List Nat) : RResult (Nat × List Nat) :=
  match s with
  | b0 :: b1 :: b2 :: b3 :: rest => .ok (u32val en b0 b1 b2 b3, rest)
  | _ => .err .shortRead

/-- `read_u64(reader, endianness)`: consume eight bytes. -/
def read_u64 (en : Endianness) (s : List Nat) : RResult (Nat × List Nat) :=
  match s with
  | b0 :: b1 :: b2 :: b3 :: b4 :: b5 :: b6 :: b7 :: rest =>
      .ok (u64val en b0 b1 b2 b3 b4 b5 b6 b7, rest)
  | _ => .err .shortRead

/-- `reader.read_exact(&mut buffer)` on an `n`-byte buffer: yields the first
`n` bytes and the rest of the stream, or `UnexpectedEof` if fewer remain. -/
def read_exact (n : Nat) (s : List Nat) : RResult (List Nat × List Nat) :=
  if n ≤ s.length then .ok (s.take n, s.drop n) else .err .shortRead

/-- The decoded fields of `PageHeaderData`.  The newtype wrappers
(`PageXLogRecPtr`, `LocationIndex`, `TransactionId`) are erased to their
underlying integers. -/
structure PageHeaderData where
  pd_lsn : Nat
  pd_checksum : Nat
  pd_flags : Nat
  pd_lower : Nat
  pd_upper : Nat
  pd_special : Nat
  pd_pagesize_version : Nat
  pd_prune_xid : Nat
deriving DecidableEq, Repr

/-- A decoded line pointer (`ItemIdData`): `lp_flags` holds the 2-bit
status value as produced by `LPFlags::from_bits_truncate`. -/
structure ItemIdData where
  lp_off : Nat
  lp_flags : Nat
  lp_len : Nat
deriving DecidableEq, Repr

/-- `LPFlags::LP_NORMAL` (= 0x01). -/
def LP_NORMAL : Nat := 1

/-- `ItemIdData::from_reader`: two independent 16-bit reads; the offset is
the low 15 bits of the first half, the raw flags are `(first_part >> 15) &
0x03` (then truncated to the `LPFlags` domain `0x03` by
`from_bits_truncate`), and the length is the low 15 bits of the second
half. -/
def ItemIdData.from_reader (en : Endianness) (s : List Nat) :
    RResult (ItemIdData × List Nat) :=
  (read_u16 en s).bind fun p1 =>
  (read_u16 en p1.2).bind fun p2 =>
  let first_part := p1.1
  let second_part := p2.1
  let lp_off := Nat.land first_part 0x7FFF
  let raw_flags := Nat.land (first_part / 32768) 0x03
  let lp_flags := Nat.land raw_flags 0x03
  let lp_len := Nat.land second_part 0x7FFF
  .ok (⟨lp_off, lp_flags, lp_len⟩, p2.2)

/-- Modelled from the spec (§3, §9): the decode the spec mandates for a
line-pointer word, extracting bit ranges [0,14] (offset), [15,16]
(status) and [17,31] (length) from the whole 32-bit word. -/
structure SpecLinePointer where
  offset : Nat
  status : Nat
  length : Nat
deriving DecidableEq, Repr

/-- Modelled from the spec (§3, §9): mask/shift extraction of the three
line-pointer fields from one 32-bit unsigned integer. -/
def spec_decode_line_pointer (w : Nat) : SpecLinePointer :=
  { offset := w % 32768
    status := (w / 32768) % 4
    length := (w / 131072) % 32768 }

/-- `read_page_header`: the 24-byte fixed page header, in field order.
`PageFlags::from_bits_truncate` keeps the three known bits `0x0007`. -/
def read_page_header (en : Endianness) (s : List Nat) :
    RResult (PageHeaderData × List Nat) :=
  (read_u64 en s).bind fun lsn =>
  (read_u16 en lsn.2).bind fun checksum =>
  (read_u16 en checksum.2).bind fun flags =>
  (read_u16 en flags.2).bind fun lower =>
  (read_u16 en lower.2).bind fun upper =>
  (read_u16 en upper.2).bind fun special =>
  (read_u16 en special.2).bind fun psv =>
  (read_u32 en psv.2).bind fun prune =>
  .ok ({ pd_lsn := lsn.1
         pd_checksum := checksum.1
         pd_flags := Nat.land flags.1 0x0007
         pd_lower := lower.1
         pd_upper := upper.1
         pd_special := special.1
         pd_pagesize_version := psv.1
         pd_prune_xid := prune.1 }, prune.2)

/-- `std::mem::size_of::<PageHeaderData>()` = 24. -/
def sizeOfPageHeaderData : Nat := 24

/-- The `for _ in 0..num_identifiers` loop body of `read_item_identifiers`:
read `n` consecutive line pointers. -/
def readItemIdLoop (en : Endianness) : Nat → List Nat →
    RResult (List ItemIdData × List Nat)
  | 0, s => .ok ([], s)
  | n + 1, s =>
      (ItemIdData.from_reader en s).bind fun item =>
      (readItemIdLoop en n item.2).bind fun items =>
      .ok (item.1 :: items.1, items.2)

/-- `read_item_identifiers`: the count is
`(*header.pd_lower as usize - size_of::<PageHeaderData>()) / 4`.  The
subtraction is an unguarded `usize` subtraction: when `pd_lower < 24` it
underflows, which is a Rust panic (`panicked`), not an `Err`. -/
def read_item_identifiers (en : Endianness) (header : PageHeaderData)
    (s : List Nat) : RResult (List ItemIdData × List Nat) :=
  if header.pd_lower < sizeOfPageHeaderData then .panicked
  else readItemIdLoop en ((header.pd_lower - sizeOfPageHeaderData) / 4) s

/-- Decoded fields of `HeapTupleHeaderData`.  `t_infomask2` is masked by
`Infomask2::from_bits_truncate` to the union of its named bits `0xE7FF`;
the `Infomask` constants cover all 16 bits, so its mask `0xFFFF` keeps
everything. -/
structure HeapTupleHeaderData where
  t_xmin : Nat
  t_xmax : Nat
  t_cid : Nat
  t_ctid : List Nat
  t_infomask2 : Nat
  t_infomask : Nat
  t_hoff : Nat
deriving DecidableEq, Repr

/-- `HeapTupleHeaderData::read_from`: 4+4+4+6+2+2+1 = 23 bytes, in order. -/
def HeapTupleHeaderData.read_from (en : Endianness) (s : List Nat) :
    RResult (HeapTupleHeaderData × List Nat) :=
  (read_u32 en s).bind fun xmin =>
  (read_u32 en xmin.2).bind fun xmax =>
  (read_u32 en xmax.2).bind fun cid =>
  (read_exact 6 cid.2).bind fun ctid =>
  (read_u16 en ctid.2).bind fun im2 =>
  (read_u16 en im2.2).bind fun im =>
  (read_u8 im.2).bind fun hoff =>
  .ok ({ t_xmin := xmin.1
         t_xmax := xmax.1
         t_cid := cid.1
         t_ctid := ctid.1
         t_infomask2 := Nat.land im2.1 0xE7FF
         t_infomask := Nat.land im.1 0xFFFF
         t_hoff := hoff.1 }, hoff.2)

/-- `std::mem::size_of::<HeapTupleHeaderData>()` = 24: the 23 bytes of
fields are padded to the struct's 4-byte alignment. -/
def sizeOfHeapTupleHeaderData : Nat := 24

/-- A decoded row (`HeapTuple`): the fixed header plus the raw payload
bytes.  There is no null-bitmap field. -/
structure HeapTuple where
  header : HeapTupleHeaderData
  data : List Nat
deriving DecidableEq, Repr

/-- `HeapTuple::from_reader`: read the 23-byte fixed header, then read
`total_length as usize - size_of::<HeapTupleHeaderData>()` bytes of
payload.  The subtraction is an unguarded `usize` subtraction
(`panicked` when `total_length < 24`); `t_hoff` is never consulted. -/
def HeapTuple.from_reader (en : Endianness) (total_length : Nat)
    (s : List Nat) : RResult (HeapTuple × List Nat) :=
  (HeapTupleHeaderData.read_from en s).bind fun header =>
  if total_length < sizeOfHeapTupleHeaderData then .panicked
  else
    (read_exact (total_length - sizeOfHeapTupleHeaderData) header.2).bind
      fun data => .ok ({ header := header.1, data := data.1 }, data.2)

/-- The (never-populated) special section. -/
structure SpecialSection where
  data : List Nat
deriving DecidableEq, Repr

/-- A decoded page (`PageLayout`). -/
structure PageLayout where
  header : PageHeaderData
  item_identifiers : List ItemIdData
  items : List HeapTuple
  special_space : Option SpecialSection
deriving DecidableEq, Repr

/-- The `for item_id in &item_identifiers` loop of
`PageLayout::from_reader`: a Normal slot is decoded as a `HeapTuple` with
`total_length = lp_len`; any other slot has `lp_len` bytes skipped. -/
def readTuplesLoop (en : Endianness) : List ItemIdData → List Nat →
    RResult (List HeapTuple × List Nat)
  | [], s => .ok ([], s)
  | item :: restIds, s =>
      if item.lp_flags = LP_NORMAL then
        (HeapTuple.from_reader en item.lp_len s).bind fun t =>
        (readTuplesLoop en restIds t.2).bind fun ts =>
        .ok (t.1 :: ts.1, ts.2)
      else
        (read_exact item.lp_len s).bind fun skipped =>
        readTuplesLoop en restIds skipped.2

/-- `PageLayout::from_reader`: header, line pointers, tuples; the special
space is left as `None` (the source's placeholder).  No validation of the
header ordering invariant is performed anywhere on this path. -/
def PageLayout.from_reader (en : Endianness) (s : List Nat) :
    RResult (PageLayout × List Nat) :=
  (read_page_header en s).bind fun header =>
  (read_item_identifiers en header.1 header.2).bind fun ids =>
  (readTuplesLoop en ids.1 ids.2).bind fun items =>
  .ok ({ header := header.1
         item_identifiers := ids.1
         items := items.1
         special_space := none }, items.2)

/-- `DEFAULT_POSTGRES_PAGE_SIZE`. -/
def DEFAULT_POSTGRES_PAGE_SIZE : Nat := 8192

/-- One outcome of a `reader.read(&mut buffer)` call in `read_all_pages`:
either some bytes (possibly none, signalling end of stream, or fewer than
a page) or an I/O error from the underlying source. -/
inductive ReadChunk where
  | bytes (bs : List Nat)
  | ioError
deriving DecidableEq, Repr

/-- The `while let Ok(bytes_read) = reader.read(&mut buffer)` loop of
`read_all_pages`, with `pages` the accumulator.  Note the loop condition:
when the underlying read yields an `Err`, the `while let` pattern match
fails, the loop exits, and the function falls through to `Ok(pages)` —
the I/O error is swallowed.  An exhausted chunk list behaves like a
source that reports end of stream. -/
def read_all_pages_go (en : Endianness) :
    List ReadChunk → List PageLayout → RResult (List PageLayout)
  | [], pages => .ok pages
  | .ioError :: _, pages => .ok pages
  | .bytes bs :: rest, pages =>
      if bs.length = 0 then .ok pages
      else if bs.length ≠ DEFAULT_POSTGRES_PAGE_SIZE then
        .err .incompletePageData
      else
        match PageLayout.from_reader en bs with
        | .ok page => read_all_pages_go en rest (pages ++ [page.1])
        | .err e => .err e
        | .panicked => .panicked

/-- `read_all_pages`: run the block loop starting from an empty page
vector. -/
def read_all_pages (en : Endianness) (chunks : List ReadChunk) :
    RResult (List PageLayout) :=
  read_all_pages_go en chunks []

/-! ## Concrete inputs used by the claim theorems -/

/-- A 23-byte row header (all metadata zero, `t_hoff` byte = 25) followed
by six payload bytes. -/
def c2bytesA : List Nat :=
  [0,0,0,0, 0,0,0,0, 0,0,0,0, 0,0,0,0,0,0, 0,0, 0,0, 25, 1,2,3,4,5,6]

/-- Same stream but with `t_hoff` byte = 200, larger than the declared
total length 30. -/
def c2bytesB : List Nat :=
  [0,0,0,0, 0,0,0,0, 0,0,0,0, 0,0,0,0,0,0, 0,0, 0,0, 200, 1,2,3,4,5,6]

/-- A full 8192-byte block whose header has `pd_lower = 24`,
`pd_upper = 10`, `pd_special = 5` (little-endian): it violates the
ordering invariant `24 ≤ lower ≤ upper ≤ special ≤ page_size`. -/
def c3block : List Nat :=
  [0,0,0,0,0,0,0,0, 0,0, 0,0, 24,0, 10,0, 5,0, 0,0, 0,0,0,0] ++
    List.replicate 8168 0

/-- The page `c3block` decodes to. -/
def c3page : PageLayout :=
  { header := { pd_lsn := 0, pd_checksum := 0, pd_flags := 0,
                pd_lower := 24, pd_upper := 10, pd_special := 5,
                pd_pagesize_version := 0, pd_prune_xid := 0 }
    item_identifiers := []
    items := []
    special_space := none }

/-- A 23-byte row header with `t_infomask2 = 9` (attribute count 9, so a
null bitmap would be `ceil(9/8) = 2` bytes), `t_infomask = 1`
(`HEAP_HASNULL` set) and `t_hoff = 24` (gap of `24 - 23 = 1` byte),
followed by six payload bytes. -/
def c4bytes : List Nat :=
  [0,0,0,0, 0,0,0,0, 0,0,0,0, 0,0,0,0,0,0, 9,0, 1,0, 24, 1,2,3,4,5,6]

/-- A full 8192-byte block with `pd_lower = 24` and all other header
fields zero: it decodes successfully (no line pointers, no rows). -/
def trivialBlock : List Nat :=
  [0,0,0,0,0,0,0,0, 0,0, 0,0, 24,0, 0,0, 0,0, 0,0, 0,0,0,0] ++
    List.replicate 8168 0

/-- The page `trivialBlock` decodes to. -/
def trivialPage : PageLayout :=
  { header := { pd_lsn := 0, pd_checksum := 0, pd_flags := 0,
                pd_lower := 24, pd_upper := 0, pd_special := 0,
                pd_pagesize_version := 0, pd_prune_xid := 0 }
    item_identifiers := []
    items := []
    special_space := none }

/-- A 23-byte row-header stream followed by 6 data bytes; the header's
`t_hoff` byte is 29 and the declared total length used with it is 30. -/
def c7bytes : List Nat :=
  [0,0,0,0, 0,0,0,0, 0,0,0,0, 0,0,0,0,0,0, 0,0, 0,0, 29, 7,8,9,10,11,12]

/-- The all-zero page header, as decoded from 24 zero bytes; its
`pd_lower` is 0 < 24. -/
def zeroHeader : PageHeaderData :=
  { pd_lsn := 0, pd_checksum := 0, pd_flags := 0, pd_lower := 0,
    pd_upper := 0, pd_special := 0, pd_pagesize_version := 0,
    pd_prune_xid := 0 }

/-- A 24-byte block of zeros: its decoded header is `zeroHeader`. -/
def zeros24 : List Nat := List.replicate 24 0

/-! ## Helper lemmas -/

/-- Length of the violating block. -/
theorem c3block_length : c3block.length = 8192 := by
  rw [c3block, List.length_append, List.length_replicate]
  norm_num

/-- Length of the trivial block. -/
theorem trivialBlock_length : trivialBlock.length = 8192 := by
  rw [trivialBlock, List.length_append, List.length_replicate]
  norm_num

/-- Decoding the violating block: only the first 24 bytes are consumed
for the header, `pd_lower = 24` yields no line pointers and no rows. -/
theorem c3block_decode :
    PageLayout.from_reader .littleEndian c3block =
      .ok (c3page, List.replicate 8168 0) := rfl

/-- Decoding the trivial block. -/
theorem trivialBlock_decode :
    PageLayout.from_reader .littleEndian trivialBlock =
      .ok (trivialPage, List.replicate 8168 0) := rfl

/-- One step of the block loop on a full-sized block: decode it and
either recurse with the page appended or abort with the decode
failure. -/
theorem read_all_pages_go_full (en : Endianness) (bs : List Nat)
    (rest : List ReadChunk) (pages : List PageLayout)
    (hlen : bs.length = DEFAULT_POSTGRES_PAGE_SIZE) :
    read_all_pages_go en (.bytes bs :: rest) pages =
      match PageLayout.from_reader en bs with
      | .ok page => read_all_pages_go en rest (pages ++ [page.1])
      | .err e => .err e
      | .panicked => .panicked := by
  rw [read_all_pages_go, hlen]
  simp [DEFAULT_POSTGRES_PAGE_SIZE]

/-! ## Claim theorems -/

/-- C1: the claim states that the line-pointer decoder extracts bit
ranges [0,14], [15,16], [17,31] from the 4 bytes taken as one 32-bit
word, and never masks the two 16-bit halves independently.  The code does
the opposite: on the word `0x00010000` (little-endian bytes
`[0, 0, 1, 0]`), whose 32-bit decomposition is offset 0, status 2
(Redirect), length 0, `ItemIdData::from_reader` produces status 0
(Unused) and length 1 — bit 16 (the status field's high bit) is
misallocated to the length, because `(first_part >> 15) & 0x03` on a
16-bit half can only ever see one status bit. -/
theorem c1_status_bit_misattributed :
    ItemIdData.from_reader .littleEndian [0, 0, 1, 0] =
      .ok ({ lp_off := 0, lp_flags := 0, lp_len := 1 }, []) ∧
    spec_decode_line_pointer (u32val .littleEndian 0 0 1 0) =
      { offset := 0, status := 2, length := 0 } ∧
    u32val .littleEndian 0 0 1 0 = 0x00010000 := by
  refine ⟨rfl, rfl, rfl⟩

/-- C2: the claim states that a Normal slot of declared length `L = 30`
whose row header has `hoff = 25` yields a payload of `L − hoff = 5`
bytes, and that `hoff > L` is a `StructuralInvariantViolation`.  The code
instead reads `L − size_of::<HeapTupleHeaderData>() = 30 − 24 = 6`
payload bytes, ignoring `hoff` entirely: with `hoff = 25` the payload is
the 6 bytes `[1,2,3,4,5,6]` (not 5 bytes), and with `hoff = 200 > 30`
decoding still succeeds with the same 6-byte payload instead of
failing. -/
theorem c2_payload_ignores_hoff :
    HeapTuple.from_reader .littleEndian 30 c2bytesA =
      .ok ({ header := { t_xmin := 0, t_xmax := 0, t_cid := 0,
                         t_ctid := [0, 0, 0, 0, 0, 0],
                         t_infomask2 := 0, t_infomask := 0, t_hoff := 25 },
             data := [1, 2, 3, 4, 5, 6] }, []) ∧
    HeapTuple.from_reader .littleEndian 30 c2bytesB =
      .ok ({ header := { t_xmin := 0, t_xmax := 0, t_cid := 0,
                         t_ctid := [0, 0, 0, 0, 0, 0],
                         t_infomask2 := 0, t_infomask := 0, t_hoff := 200 },
             data := [1, 2, 3, 4, 5, 6] }, []) := by
  refine ⟨rfl, rfl⟩

/-- C3 counterexample: the claim states that every full block either
satisfies `24 ≤ lower ≤ upper ≤ special ≤ page_size` or triggers a
`StructuralInvariantViolation`, and that no violating page is ever
appended.  But `c3block` (lower 24, upper 10, special 5) violates
`lower ≤ upper`, and `read_all_pages` appends it and reports no error:
no validation of the ordering invariant exists anywhere in the code. -/
theorem c3_violating_page_appended :
    read_all_pages .littleEndian [.bytes c3block] = .ok [c3page] ∧
    ¬ (c3page.header.pd_lower ≤ c3page.header.pd_upper ∧
        c3page.header.pd_upper ≤ c3page.header.pd_special) := by
  refine ⟨?_, by decide⟩
  rw [read_all_pages, read_all_pages_go_full _ _ _ _ c3block_length,
    c3block_decode]
  rfl

/-- C4 counterexample: the claim states that a row whose header has the
has-null flag set gets a null bitmap of `ceil(attribute-count/8)` bytes,
and that a mismatch between that size and the gap below `hoff` is a
structural error.  In `c4bytes` the has-null bit is set
(`t_infomask = 1`), the attribute count is 9 (bitmap size 2), and the
gap implied by `t_hoff = 24` is only 1 byte — yet decoding succeeds with
no bitmap and no error: the decoded `HeapTuple` has only a header and an
opaque 6-byte payload (the code never reads a bitmap or checks the
gap). -/
theorem c4_no_structural_error_on_bitmap_mismatch :
    HeapTuple.from_reader .littleEndian 30 c4bytes =
      .ok ({ header := { t_xmin := 0, t_xmax := 0, t_cid := 0,
                         t_ctid := [0, 0, 0, 0, 0, 0],
                         t_infomask2 := 9, t_infomask := 1, t_hoff := 24 },
             data := [1, 2, 3, 4, 5, 6] }, []) := rfl

/-- C5 counterexample: the claim states that after `k` pages decode
successfully and a fatal error occurs, the reader returns the error
together with those `k` pages.  Here one page (`trivialBlock`) decodes
successfully and the next read is a 100-byte partial block: the result
is the bare error — the `Err` branch of `io::Result<Vec<PageLayout>>`
carries no pages, so the decoded page is discarded. -/
theorem c5_pages_discarded_on_error :
    read_all_pages .littleEndian
        [.bytes trivialBlock, .bytes (List.replicate 100 0)] =
      .err .incompletePageData := by
  rw [read_all_pages, read_all_pages_go_full _ _ _ _ trivialBlock_length,
    trivialBlock_decode]
  show read_all_pages_go .littleEndian [.bytes (List.replicate 100 0)] _ =
    .err .incompletePageData
  rw [read_all_pages_go]
  norm_num [List.length_replicate, DEFAULT_POSTGRES_PAGE_SIZE]

/-- C6: the claim states that an I/O error from the underlying byte
source is propagated and never turns into a success result.  But the
loop is `while let Ok(bytes_read) = reader.read(&mut buffer)`: when the
read returns `Err`, the pattern match fails, the loop exits, and the
function returns `Ok(pages)` — the error is swallowed and the stream
ends as if end-of-file had been reached.  A source that fails on its
first read yields `Ok(vec![])`; one that fails after a good block yields
`Ok` with that one page and no error. -/
theorem c6_read_error_swallowed :
    read_all_pages .littleEndian [.ioError] = .ok [] ∧
    read_all_pages .littleEndian [.bytes trivialBlock, .ioError] =
      .ok [trivialPage] := by
  constructor
  · rfl
  · rw [read_all_pages, read_all_pages_go_full _ _ _ _ trivialBlock_length,
      trivialBlock_decode]
    rfl

/-- Inversion of `RResult.bind`: a successful sequence means the first
step succeeded and the continuation succeeded on its value. -/
theorem RResult.bind_eq_ok {α β : Type} {x : RResult α} {f : α → RResult β}
    {b : β} (h : x.bind f = .ok b) : ∃ a, x = .ok a ∧ f a = .ok b := by
  cases x with
  | ok a => exact ⟨a, rfl, h⟩
  | err e => exact absurd h (by simp [RResult.bind])
  | panicked => exact absurd h (by simp [RResult.bind])

/-- A successful `read_u8` consumes exactly one byte. -/
theorem read_u8_eq_ok {s : List Nat} {v : Nat} {s' : List Nat}
    (h : read_u8 s = .ok (v, s')) : s' = s.drop 1 ∧ 1 ≤ s.length := by
  unfold read_u8 at h
  split at h
  · simp only [RResult.ok.injEq, Prod.mk.injEq] at h
    obtain ⟨h1, h2⟩ := h
    subst h2
    refine ⟨rfl, ?_⟩
    simp only [List.length_cons]
    omega
  · simp at h

/-- A successful `read_u16` consumes exactly two bytes. -/
theorem read_u16_eq_ok {en : Endianness} {s : List Nat} {v : Nat}
    {s' : List Nat} (h : read_u16 en s = .ok (v, s')) :
    s' = s.drop 2 ∧ 2 ≤ s.length := by
  unfold read_u16 at h
  split at h
  · simp only [RResult.ok.injEq, Prod.mk.injEq] at h
    obtain ⟨h1, h2⟩ := h
    subst h2
    refine ⟨rfl, ?_⟩
    simp only [List.length_cons]
    omega
  · simp at h

/-- A successful `read_u32` consumes exactly four bytes. -/
theorem read_u32_eq_ok {en : Endianness} {s : List Nat} {v : Nat}
    {s' : List Nat} (h : read_u32 en s = .ok (v, s')) :
    s' = s.drop 4 ∧ 4 ≤ s.length := by
  unfold read_u32 at h
  split at h
  · simp only [RResult.ok.injEq, Prod.mk.injEq] at h
    obtain ⟨h1, h2⟩ := h
    subst h2
    refine ⟨rfl, ?_⟩
    simp only [List.length_cons]
    omega
  · simp at h

/-- A successful `read_u64` consumes exactly eight bytes. -/
theorem read_u64_eq_ok {en : Endianness} {s : List Nat} {v : Nat}
    {s' : List Nat} (h : read_u64 en s = .ok (v, s')) :
    s' = s.drop 8 ∧ 8 ≤ s.length := by
  unfold read_u64 at h
  split at h
  · simp only [RResult.ok.injEq, Prod.mk.injEq] at h
    obtain ⟨h1, h2⟩ := h
    subst h2
    refine ⟨rfl, ?_⟩
    simp only [List.length_cons]
    omega
  · simp at h

/-- A successful `read_exact` yields the first `n` bytes and drops them. -/
theorem read_exact_eq_ok {n : Nat} {s v s' : List Nat}
    (h : read_exact n s = .ok (v, s')) :
    v = s.take n ∧ s' = s.drop n ∧ n ≤ s.length := by
  unfold read_exact at h
  split at h
  · rename_i hle
    simp only [RResult.ok.injEq, Prod.mk.injEq] at h
    exact ⟨h.1.symm, h.2.symm, hle⟩
  · simp at h

/-- `read_exact` succeeds when enough bytes remain. -/
theorem read_exact_of_le {n : Nat} {s : List Nat} (h : n ≤ s.length) :
    read_exact n s = .ok (s.take n, s.drop n) := by
  unfold read_exact
  rw [if_pos h]

/-- A successful row-header read consumes exactly the 23 header bytes. -/
theorem read_from_eq_ok {en : Endianness} {s : List Nat}
    {hd : HeapTupleHeaderData} {s' : List Nat}
    (h : HeapTupleHeaderData.read_from en s = .ok (hd, s')) :
    s' = s.drop 23 ∧ 23 ≤ s.length := by
  unfold HeapTupleHeaderData.read_from at h
  obtain ⟨xmin, hx, h⟩ := RResult.bind_eq_ok h
  obtain ⟨xv, xr⟩ := xmin
  obtain ⟨hxd, hxl⟩ := read_u32_eq_ok hx
  subst hxd
  obtain ⟨xmax, hy, h⟩ := RResult.bind_eq_ok h
  obtain ⟨yv, yr⟩ := xmax
  obtain ⟨hyd, hyl⟩ := read_u32_eq_ok hy
  subst hyd
  obtain ⟨cid, hz, h⟩ := RResult.bind_eq_ok h
  obtain ⟨zv, zr⟩ := cid
  obtain ⟨hzd, hzl⟩ := read_u32_eq_ok hz
  subst hzd
  obtain ⟨ctid, hc, h⟩ := RResult.bind_eq_ok h
  obtain ⟨cv, cr⟩ := ctid
  obtain ⟨hcv, hcd, hcl⟩ := read_exact_eq_ok hc
  subst hcd
  obtain ⟨im2, hm, h⟩ := RResult.bind_eq_ok h
  obtain ⟨mv, mr⟩ := im2
  obtain ⟨hmd, hml⟩ := read_u16_eq_ok hm
  subst hmd
  obtain ⟨im, hn, h⟩ := RResult.bind_eq_ok h
  obtain ⟨nv, nr⟩ := im
  obtain ⟨hnd, hnl⟩ := read_u16_eq_ok hn
  subst hnd
  obtain ⟨hoff, ho, h⟩ := RResult.bind_eq_ok h
  obtain ⟨ov, orr⟩ := hoff
  obtain ⟨hod, hol⟩ := read_u8_eq_ok ho
  subst hod
  simp only [RResult.ok.injEq, Prod.mk.injEq] at h
  obtain ⟨hhd, hs'⟩ := h
  subst hs'
  simp only [List.drop_drop, List.length_drop] at *
  constructor
  · norm_num
  · omega

/-- C7: decoding a Normal row of declared length `L ≥ 24` consumes
exactly `L − 1` bytes of the stream, not `L`: the header read consumes
the 23 bytes actually present, while the payload read consumes
`L − size_of::<HeapTupleHeaderData>() = L − 24` bytes (the in-memory
struct size is padded to 24, one more than the 23 bytes read), so after
every Normal row the cursor lags the declared row boundary by one
byte. -/
theorem c7_normal_row_consumes_len_minus_one (en : Endianness) (L : Nat)
    (s s' : List Nat) (t : HeapTuple) (hL : 24 ≤ L)
    (h : HeapTuple.from_reader en L s = .ok (t, s')) :
    s' = s.drop (L - 1) ∧ s.length = (L - 1) + s'.length := by
  unfold HeapTuple.from_reader at h
  obtain ⟨hdr, hhdr, h⟩ := RResult.bind_eq_ok h
  obtain ⟨hv, hr⟩ := hdr
  obtain ⟨hdrop, hlen⟩ := read_from_eq_ok hhdr
  subst hdrop
  rw [if_neg (by unfold sizeOfHeapTupleHeaderData; omega)] at h
  obtain ⟨dat, hdat, h⟩ := RResult.bind_eq_ok h
  obtain ⟨dv, dr⟩ := dat
  obtain ⟨hdv, hdd, hdl⟩ := read_exact_eq_ok hdat
  subst hdd
  simp only [RResult.ok.injEq, Prod.mk.injEq] at h
  obtain ⟨ht, hs'⟩ := h
  subst hs'
  unfold sizeOfHeapTupleHeaderData at hdl ⊢
  rw [List.drop_drop]
  have h1 : 23 + (L - 24) = L - 1 := by omega
  rw [h1]
  refine ⟨rfl, ?_⟩
  simp only [List.length_drop] at hdl ⊢
  omega

/-- C7 witness: at declared length 30 the decoder consumes exactly 29 of
the 29 bytes of `c7bytes`, leaving nothing. -/
theorem c7_normal_row_consumes_len_minus_one_witness :
    ([] : List Nat) = c7bytes.drop (30 - 1) ∧
    c7bytes.length = (30 - 1) + ([] : List Nat).length :=
  c7_normal_row_consumes_len_minus_one .littleEndian 30 c7bytes []
    { header := { t_xmin := 0, t_xmax := 0, t_cid := 0,
                  t_ctid := [0, 0, 0, 0, 0, 0], t_infomask2 := 0,
                  t_infomask := 0, t_hoff := 29 },
      data := [7, 8, 9, 10, 11, 12] }
    (by norm_num) rfl

/-- A successful run of the line-pointer loop returns exactly as many
entries as requested, in read order. -/
theorem readItemIdLoop_length (en : Endianness) :
    ∀ (n : Nat) (s : List Nat) (l : List ItemIdData) (s' : List Nat),
      readItemIdLoop en n s = .ok (l, s') → l.length = n := by
  intro n
  induction n with
  | zero =>
    intro s l s' h
    unfold readItemIdLoop at h
    simp only [RResult.ok.injEq, Prod.mk.injEq] at h
    rw [← h.1]
    rfl
  | succ n ih =>
    intro s l s' h
    unfold readItemIdLoop at h
    obtain ⟨item, hitem, h⟩ := RResult.bind_eq_ok h
    obtain ⟨iv, ir⟩ := item
    obtain ⟨items, hitems, h⟩ := RResult.bind_eq_ok h
    obtain ⟨lv, lr⟩ := items
    simp only [RResult.ok.injEq, Prod.mk.injEq] at h
    rw [← h.1]
    simp only [List.length_cons]
    rw [ih ir lv lr hitems]

/-- C8: a successfully decoded page with `pd_lower ≥ 24` carries exactly
`(pd_lower − 24) / 4` line pointers (in directory order, the order they
are read); with `pd_lower = 24` both the line-pointer sequence and the
row sequence are empty. -/
theorem c8_line_pointer_count (en : Endianness) (s : List Nat)
    (p : PageLayout) (r : List Nat)
    (h : PageLayout.from_reader en s = .ok (p, r))
    (hlow : 24 ≤ p.header.pd_lower) :
    p.item_identifiers.length = (p.header.pd_lower - 24) / 4 ∧
    (p.header.pd_lower = 24 → p.item_identifiers = [] ∧ p.items = []) := by
  unfold PageLayout.from_reader at h
  obtain ⟨hdr, hhdr, h⟩ := RResult.bind_eq_ok h
  obtain ⟨hv, hr⟩ := hdr
  dsimp only at h
  obtain ⟨ids, hids, h⟩ := RResult.bind_eq_ok h
  obtain ⟨idsv, idsr⟩ := ids
  dsimp only at h
  obtain ⟨its, hits, h⟩ := RResult.bind_eq_ok h
  obtain ⟨itsv, itsr⟩ := its
  dsimp only at h
  simp only [RResult.ok.injEq, Prod.mk.injEq] at h
  obtain ⟨hp, hrr⟩ := h
  subst hp
  dsimp only at hlow hids hits ⊢
  unfold read_item_identifiers at hids
  rw [if_neg (by unfold sizeOfPageHeaderData; omega)] at hids
  unfold sizeOfPageHeaderData at hids
  have hcount := readItemIdLoop_length en _ _ _ _ hids
  refine ⟨hcount, ?_⟩
  intro h24
  rw [h24] at hcount
  norm_num at hcount
  subst hcount
  unfold readTuplesLoop at hits
  simp only [RResult.ok.injEq, Prod.mk.injEq] at hits
  exact ⟨rfl, hits.1.symm⟩

/-- C8 witness: `trivialBlock` has `pd_lower = 24` and decodes to zero
line pointers and zero rows. -/
theorem c8_line_pointer_count_witness :
    trivialPage.item_identifiers.length =
      (trivialPage.header.pd_lower - 24) / 4 ∧
    (trivialPage.header.pd_lower = 24 →
      trivialPage.item_identifiers = [] ∧ trivialPage.items = []) :=
  c8_line_pointer_count .littleEndian trivialBlock trivialPage
    (List.replicate 8168 0) trivialBlock_decode (by norm_num [trivialPage])

/-- C9: a zero-byte read terminates the block loop successfully with the
pages read so far (`break` then `Ok(pages)`), while a nonzero read
shorter than the page size aborts with the truncation error
(`InvalidData`, "Incomplete page data") and appends no page — the error
result carries no pages at all. -/
theorem c9_zero_read_done_short_read_truncated (en : Endianness)
    (pages : List PageLayout) (rest : List ReadChunk) (bs : List Nat)
    (hpos : 0 < bs.length)
    (hshort : bs.length ≠ DEFAULT_POSTGRES_PAGE_SIZE) :
    read_all_pages en (.bytes [] :: rest) = .ok [] ∧
    read_all_pages_go en (.bytes [] :: rest) pages = .ok pages ∧
    read_all_pages_go en (.bytes bs :: rest) pages =
      .err .incompletePageData := by
  refine ⟨?_, ?_, ?_⟩
  · rw [read_all_pages]
    simp [read_all_pages_go]
  · simp [read_all_pages_go]
  · rw [read_all_pages_go, if_neg (by omega), if_pos hshort]

/-- C9 witness: an empty read ends the stream with success; a 100-byte
final chunk yields the truncation error. -/
theorem c9_zero_read_done_short_read_truncated_witness :
    read_all_pages .littleEndian [.bytes []] = .ok [] ∧
    read_all_pages_go .littleEndian [.bytes []] [] = .ok [] ∧
    read_all_pages_go .littleEndian [.bytes (List.replicate 100 0)] [] =
      .err .incompletePageData :=
  c9_zero_read_done_short_read_truncated .littleEndian [] []
    (List.replicate 100 0) (by simp)
    (by simp [DEFAULT_POSTGRES_PAGE_SIZE])

/-- C10: `read_item_identifiers` computes its count with the unguarded
subtraction `pd_lower - size_of::<PageHeaderData>()`: whenever
`pd_lower < 24` it underflows, a panic rather than an `Err`; and since
`PageLayout::from_reader` performs no prior validation of the header,
any block whose decoded header has `pd_lower < 24` drives the whole
decode into that panic. -/
theorem c10_item_identifiers_underflow_panics (en : Endianness)
    (hdr : PageHeaderData) (s s0 s1 : List Nat)
    (hlow : hdr.pd_lower < 24)
    (hph : read_page_header en s0 = .ok (hdr, s1)) :
    read_item_identifiers en hdr s = .panicked ∧
    PageLayout.from_reader en s0 = .panicked := by
  have hpan : ∀ s2 : List Nat, read_item_identifiers en hdr s2 = .panicked := by
    intro s2
    unfold read_item_identifiers
    rw [if_pos (by unfold sizeOfPageHeaderData; omega)]
  refine ⟨hpan s, ?_⟩
  unfold PageLayout.from_reader
  rw [hph]
  show RResult.bind _ _ = _
  simp only [RResult.bind]
  rw [hpan s1]

/-- C10 witness: the all-zero header (`pd_lower = 0`), as decoded from 24
zero bytes, panics the line-pointer count computation and the whole page
decode. -/
theorem c10_item_identifiers_underflow_panics_witness :
    read_item_identifiers .littleEndian zeroHeader [] = .panicked ∧
    PageLayout.from_reader .littleEndian zeros24 = .panicked :=
  c10_item_identifiers_underflow_panics .littleEndian zeroHeader [] zeros24
    [] (by decide) rfl

/-- C3 amended: the Page Stream Reader appends every full block that
decodes successfully, with no check of the header ordering invariant
anywhere between decode and append. -/
theorem c3_decoded_full_block_always_appended (en : Endianness)
    (bs : List Nat) (p : PageLayout) (r : List Nat)
    (hlen : bs.length = DEFAULT_POSTGRES_PAGE_SIZE)
    (hdec : PageLayout.from_reader en bs = .ok (p, r)) :
    read_all_pages en [.bytes bs] = .ok [p] := by
  rw [read_all_pages, read_all_pages_go_full en bs [] [] hlen, hdec]
  rfl

/-- C3 witness: the invariant-violating block `c3block` is decoded and
appended. -/
theorem c3_decoded_full_block_always_appended_witness :
    read_all_pages .littleEndian [.bytes c3block] = .ok [c3page] :=
  c3_decoded_full_block_always_appended .littleEndian c3block c3page
    (List.replicate 8168 0) c3block_length c3block_decode

/-- Running the block loop over a prefix of full, successfully decoding
blocks and then continuing: the accumulated pages carry over. -/
theorem read_all_pages_go_append (en : Endianness) :
    ∀ (chunks more : List ReadChunk) (acc pages : List PageLayout),
      (∀ c ∈ chunks, ∃ bs, c = ReadChunk.bytes bs ∧
          bs.length = DEFAULT_POSTGRES_PAGE_SIZE) →
      read_all_pages_go en chunks acc = .ok pages →
      read_all_pages_go en (chunks ++ more) acc =
        read_all_pages_go en more pages := by
  intro chunks
  induction chunks with
  | nil =>
    intro more acc pages hfull hok
    simp only [read_all_pages_go, RResult.ok.injEq] at hok
    subst hok
    simp
  | cons c rest ih =>
    intro more acc pages hfull hok
    obtain ⟨bs, rfl, hlen⟩ := hfull c (List.mem_cons_self c rest)
    rw [read_all_pages_go_full en bs rest acc hlen] at hok
    rw [List.cons_append, read_all_pages_go_full en bs (rest ++ more) acc hlen]
    cases hdec : PageLayout.from_reader en bs with
    | ok page =>
      rw [hdec] at hok
      exact ih more (acc ++ [page.1]) pages
        (fun d hd => hfull d (List.mem_cons_of_mem _ hd)) hok
    | err e => rw [hdec] at hok; simp at hok
    | panicked => rw [hdec] at hok; simp at hok

/-- A helper for the C5 witness: one trivial full block decodes to one
page. -/
theorem trivialBlock_read_all :
    read_all_pages .littleEndian [.bytes trivialBlock] =
      .ok [trivialPage] := by
  rw [read_all_pages, read_all_pages_go_full _ _ _ _ trivialBlock_length,
    trivialBlock_decode]
  rfl

/-- C5 amended: on the first fatal error the Page Stream Reader returns
only the error; the pages already assembled are discarded (the `Err`
branch of the result carries no page list).  Concretely: any stream of
full, successfully decoding blocks followed by a nonzero short read
yields the bare truncation error. -/
theorem c5_error_discards_pages (en : Endianness) (chunks : List ReadChunk)
    (pages : List PageLayout) (bs : List Nat)
    (hfull : ∀ c ∈ chunks, ∃ b, c = ReadChunk.bytes b ∧
        b.length = DEFAULT_POSTGRES_PAGE_SIZE)
    (hok : read_all_pages en chunks = .ok pages)
    (hpos : 0 < bs.length)
    (hshort : bs.length ≠ DEFAULT_POSTGRES_PAGE_SIZE) :
    read_all_pages en (chunks ++ [.bytes bs]) = .err .incompletePageData := by
  rw [read_all_pages] at hok ⊢
  rw [read_all_pages_go_append en chunks [.bytes bs] [] pages hfull hok]
  rw [read_all_pages_go, if_neg (by omega), if_pos hshort]

/-- C5 witness: one page decodes, then a 100-byte partial block: the
result is the bare error, without the decoded page. -/
theorem c5_error_discards_pages_witness :
    read_all_pages .littleEndian
        ([.bytes trivialBlock] ++ [.bytes (List.replicate 100 0)]) =
      .err .incompletePageData :=
  c5_error_discards_pages .littleEndian [.bytes trivialBlock] [trivialPage]
    (List.replicate 100 0)
    (by
      intro c hc
      rw [List.mem_singleton] at hc
      subst hc
      exact ⟨trivialBlock, rfl, trivialBlock_length⟩)
    trivialBlock_read_all (by simp) (by simp [DEFAULT_POSTGRES_PAGE_SIZE])

/-- C4 amended: the Row Decoder extracts no null bitmap and performs no
bitmap/`hoff` consistency check: whatever the two infomask words and the
`hoff` byte hold (in particular whether or not the has-null bit
`HEAP_HASNULL = 0x0001` is set), a row of declared length `L ≥ 24`
decodes to its 23 header bytes followed by the next `L − 24` raw stream
bytes as opaque payload. -/
theorem c4_no_bitmap_no_gap_check (en : Endianness) (L : Nat)
    (x1 x2 x3 x4 y1 y2 y3 y4 z1 z2 z3 z4 : Nat)
    (c1 c2 c3 c4 c5 c6 m1 m2 n1 n2 hb : Nat) (rest : List Nat)
    (hL : 24 ≤ L) (hrest : L - 24 ≤ rest.length) :
    HeapTuple.from_reader en L
        (x1 :: x2 :: x3 :: x4 :: y1 :: y2 :: y3 :: y4 ::
          z1 :: z2 :: z3 :: z4 :: c1 :: c2 :: c3 :: c4 :: c5 :: c6 ::
          m1 :: m2 :: n1 :: n2 :: hb :: rest) =
      .ok ({ header := { t_xmin := u32val en x1 x2 x3 x4,
                         t_xmax := u32val en y1 y2 y3 y4,
                         t_cid := u32val en z1 z2 z3 z4,
                         t_ctid := [c1, c2, c3, c4, c5, c6],
                         t_infomask2 := Nat.land (u16val en m1 m2) 0xE7FF,
                         t_infomask := Nat.land (u16val en n1 n2) 0xFFFF,
                         t_hoff := hb },
             data := rest.take (L - 24) }, rest.drop (L - 24)) := by
  unfold HeapTuple.from_reader HeapTupleHeaderData.read_from
  simp only [read_u32, RResult.bind]
  rw [read_exact_of_le (by simp only [List.length_cons]; omega)]
  simp only [RResult.bind, List.take_succ_cons, List.take_zero,
    List.drop_succ_cons, List.drop_zero, read_u16, read_u8]
  rw [if_neg (by unfold sizeOfHeapTupleHeaderData; omega)]
  unfold sizeOfHeapTupleHeaderData
  rw [read_exact_of_le hrest]

/-- C4 witness: the has-null row header of `c4bytes` shape (attribute
count 9, has-null bit set, `hoff = 24`) decodes with a raw 6-byte
payload and no bitmap handling. -/
theorem c4_no_bitmap_no_gap_check_witness :
    HeapTuple.from_reader .littleEndian 30
        (0 :: 0 :: 0 :: 0 :: 0 :: 0 :: 0 :: 0 :: 0 :: 0 :: 0 :: 0 ::
          0 :: 0 :: 0 :: 0 :: 0 :: 0 :: 9 :: 0 :: 1 :: 0 :: 24 ::
          [1, 2, 3, 4, 5, 6]) =
      .ok ({ header := { t_xmin := 0, t_xmax := 0, t_cid := 0,
                         t_ctid := [0, 0, 0, 0, 0, 0],
                         t_infomask2 := 9, t_infomask := 1, t_hoff := 24 },
             data := [1, 2, 3, 4, 5, 6].take (30 - 24) },
        [1, 2, 3, 4, 5, 6].drop (30 - 24)) :=
  c4_no_bitmap_no_gap_check .littleEndian 30 0 0 0 0 0 0 0 0 0 0 0 0
    0 0 0 0 0 0 9 0 1 0 24 [1, 2, 3, 4, 5, 6] (by decide) (by decide)
